import Mathlib

/-!
Shallow embedding of the voiceai-app pipeline orchestrator
(src/components/VoiceAI.tsx): data model, the two fallback responders,
the OpenAI client's completion with local fallback, the transcript
handler that drives Completion -> Synthesis -> Playback, the recording
toggle, the api-key effect and the duplicated audio-blob effects.
Wall-clock reads (Date.now) are modelled as natural-number time points
supplied by a schedule; random choices (mock transcript pick, joke pick)
are modelled as explicit oracle parameters.
-/

namespace VoiceAI

/-- Role of a conversation message: 'user' | 'assistant'. -/
inductive Role where
  | user
  | assistant
deriving DecidableEq

/-- Message: one conversation turn (role, content, timestamp). -/
structure Message where
  role : Role
  content : String
  timestamp : Nat
deriving DecidableEq

/-- PerformanceMetrics: the published latency snapshot. All five fields
are mandatory in the source interface (src/components/VoiceAI.tsx lines
12-18); none is optional. -/
structure PerformanceMetrics where
  sttLatency : Nat
  apiLatency : Nat
  ttsLatency : Nat
  totalLatency : Nat
  playbackStart : Nat
deriving DecidableEq

/-- JavaScript String.prototype.includes on explicit character lists:
true when `pat` occurs contiguously in `s`. -/
def containsSub (pat : List Char) : List Char → Bool
  | [] => pat.isEmpty
  | c :: rest => pat.isPrefixOf (c :: rest) || containsSub pat rest

/-- `includes s pat` embeds `s.includes(pat)` from the source. -/
def includes (s pat : String) : Bool :=
  containsSub pat.data s.data

/-- JavaScript String.prototype.toLowerCase, on the character list
(the inputs here are ASCII, where Char.toLower agrees with it). -/
def toLowerCase (s : String) : String :=
  (s.data.map Char.toLower).asString

/-- JavaScript String.prototype.trim: strip whitespace from both ends. -/
def trimStr (s : String) : String :=
  (((s.data.dropWhile Char.isWhitespace).reverse.dropWhile
    Char.isWhitespace).reverse).asString

/-- The three canned jokes of OpenAIClient.generateFallbackResponse. -/
def fallbackJokes : List String :=
  [ "Why don\'t scientists trust atoms? Because they make up everything!"
  , "What do you call a fake noodle? An impasta!"
  , "Why did the scarecrow win an award? He was outstanding in his field!" ]

/-- OpenAIClient.generateFallbackResponse (lines 190-209): keyword-matched
over greeting, weather, joke, time, and a generic echo. The joke pick
(Math.random) is the `jokeIdx` oracle; the current wall-clock time string
(new Date().toLocaleTimeString()) is the `timeStr` parameter. -/
def generateFallbackResponse (jokeIdx : Fin 3) (timeStr : String)
    (input : String) : String :=
  let lowerInput := toLowerCase input
  if includes lowerInput "hello" || includes lowerInput "hi" then
    "Hello! I\'m your AI assistant. How can I help you today?"
  else if includes lowerInput "weather" then
    "I don\'t have access to real-time weather data, but I hope it\'s pleasant where you are!"
  else if includes lowerInput "joke" then
    fallbackJokes.get ⟨jokeIdx.val, by cases jokeIdx with | mk v h => simpa [fallbackJokes] using h⟩
  else if includes lowerInput "time" then
    "The current time is " ++ timeStr ++ "."
  else
    "I understand you said: \"" ++ input ++ "\". That\'s interesting! What would you like to know more about?"

/-- getOfflineResponse (lines 360-374): the offline responder, keyword-
matched over greeting, time, date, and a generic echo. `timeStr` and
`dateStr` stand for the wall-clock strings read inside the branches. -/
def getOfflineResponse (timeStr dateStr : String) (input : String) : String :=
  let lowerInput := toLowerCase input
  if includes lowerInput "hello" || includes lowerInput "hi" then
    "Hello! I\'m running in offline mode with local speech processing. How can I help you?"
  else if includes lowerInput "time" then
    "The current time is " ++ timeStr
  else if includes lowerInput "date" then
    "Today\'s date is " ++ dateStr
  else
    "You said: \"" ++ input ++ "\". I\'m running offline with local STT and TTS. What would you like to know?"

/-- Outcome of the fetch to the chat-completions endpoint, as seen by
OpenAIClient.chatCompletion: a response with an HTTP-ok flag and the
optional extracted content (data.choices[0]?.message?.content), or a
transport failure. -/
inductive FetchOutcome where
  | response (ok : Bool) (content : Option String)
  | networkError
deriving DecidableEq

/-- Result of OpenAIClient.chatCompletion: reply text plus the latency
the client measured (Date.now() - startTime). -/
structure CompletionResult where
  response : String
  latency : Nat
deriving DecidableEq

/-- OpenAIClient.chatCompletion (lines 146-188). A non-ok response throws
inside the try and is caught together with transport failures; both paths
fall back to generateFallbackResponse on the last message's content. The
function is total: it never fails outward. `okLatency` and `failLatency`
are the spans the client measures on each path. -/
def chatCompletion (jokeIdx : Fin 3) (timeStr : String)
    (outcome : FetchOutcome) (okLatency failLatency : Nat)
    (messages : List Message) : CompletionResult :=
  let lastContent := (messages.getLast?.map Message.content).getD ""
  match outcome with
  | .response true content =>
      { response := content.getD "Sorry, I could not generate a response."
      , latency := okLatency }
  | .response false _ =>
      { response := generateFallbackResponse jokeIdx timeStr lastContent
      , latency := failLatency }
  | .networkError =>
      { response := generateFallbackResponse jokeIdx timeStr lastContent
      , latency := failLatency }

/-- The wall-clock reads of one run of handleTranscript, as absolute
instants. `overallStart` is Date.now() at entry (overallStartTime);
`apiSpanStart`/`apiSpanEnd` delimit the span whose length the run records
as apiLatency (the client's own measurement online, Date.now() -
apiStartTime offline); `ttsSpanStart`/`ttsSpanEnd` delimit the span
MockTTSEngine.synthesize measures as ttsLatency; `playbackStartTime` is
Date.now() right before playAudio; `endTime` is Date.now() after playback
resolves. -/
structure Schedule where
  overallStart : Nat
  apiSpanStart : Nat
  apiSpanEnd : Nat
  ttsSpanStart : Nat
  ttsSpanEnd : Nat
  playbackStartTime : Nat
  endTime : Nat
deriving DecidableEq

/-- A schedule is well formed when its reads respect the order in which
the code takes them: entry, then the completion span, then the synthesis
span, then playback start, then playback end. -/
def Schedule.WF (s : Schedule) : Prop :=
  s.overallStart ≤ s.apiSpanStart ∧ s.apiSpanStart ≤ s.apiSpanEnd ∧
  s.apiSpanEnd ≤ s.ttsSpanStart ∧ s.ttsSpanStart ≤ s.ttsSpanEnd ∧
  s.ttsSpanEnd ≤ s.playbackStartTime ∧ s.playbackStartTime ≤ s.endTime

instance (s : Schedule) : Decidable s.WF := by
  unfold Schedule.WF; infer_instance

/-- The environment a run of handleTranscript closes over: the current
message list, the connectivity flag, the configured client (the api key
held by openaiClientRef.current, if any), the TTS readiness, the fetch
outcome and oracle values, whether MockTTSEngine.synthesize throws, and
the run's wall-clock schedule. -/
structure Env where
  messages : List Message
  isOnline : Bool
  client : Option String
  ttsEnginePresent : Bool
  isTTSLoaded : Bool
  fetchOutcome : FetchOutcome
  jokeIdx : Fin 3
  timeStr : String
  dateStr : String
  ttsFails : Bool
  sched : Schedule
deriving DecidableEq

/-- Observable outcome of one handleTranscript run: the messages it
appended in order, the final status string, the snapshot passed to
setPerformanceMetrics (none when the call never happens), whether
setIsPlaying(true) was reached, how many remote chatCompletion calls
were made, and the isProcessing flag after the finally clause. -/
structure RunResult where
  appended : List Message
  status : String
  metricsPublished : Option PerformanceMetrics
  reachedPlaying : Bool
  remoteCalls : Nat
  finalIsProcessing : Bool
deriving DecidableEq

/-- The PerformanceMetrics the success path publishes (lines 330-337):
totalLatency = Date.now() - overallStartTime and playbackStart =
playbackStart - overallStartTime, with the stage latencies as measured. -/
def successMetrics (sttLatency apiLatency ttsLatency : Nat)
    (s : Schedule) : PerformanceMetrics :=
  { sttLatency := sttLatency
  , apiLatency := apiLatency
  , ttsLatency := ttsLatency
  , totalLatency := s.endTime - s.overallStart
  , playbackStart := s.playbackStartTime - s.overallStart }

/-- The reply text the completion step of handleTranscript produces:
the remote client's result when online and configured, otherwise the
offline responder on the transcript text. -/
def completionText (env : Env) (text : String) : String :=
  let userMessage : Message := ⟨.user, text, env.sched.overallStart⟩
  if env.isOnline && env.client.isSome then
    (chatCompletion env.jokeIdx env.timeStr env.fetchOutcome
      (env.sched.apiSpanEnd - env.sched.apiSpanStart)
      (env.sched.apiSpanEnd - env.sched.apiSpanStart)
      (env.messages ++ [userMessage])).response
  else
    getOfflineResponse env.timeStr env.dateStr text

/-- handleTranscript (lines 280-358). Appends the user turn, runs the
completion step (remote client when online and configured, offline
responder otherwise), appends the assistant turn, then, when the TTS
engine is present and loaded, synthesizes and plays: on synthesis success
it reaches Playing and publishes metrics; on a synthesis throw it only
sets the degraded status. The finally clause clears isProcessing. -/
def handleTranscript (env : Env) (text : String) (sttLatency : Nat) :
    RunResult :=
  let userMessage : Message := ⟨.user, text, env.sched.overallStart⟩
  let apiLatency := env.sched.apiSpanEnd - env.sched.apiSpanStart
  let aiResponse := completionText env text
  let remoteCalls := if env.isOnline && env.client.isSome then 1 else 0
  let assistantMessage : Message := ⟨.assistant, aiResponse, env.sched.apiSpanEnd⟩
  let ttsLatency := env.sched.ttsSpanEnd - env.sched.ttsSpanStart
  if env.ttsEnginePresent && env.isTTSLoaded then
    if env.ttsFails then
      { appended := [userMessage, assistantMessage]
      , status := "TTS error, but response received"
      , metricsPublished := none
      , reachedPlaying := false
      , remoteCalls := remoteCalls
      , finalIsProcessing := false }
    else
      { appended := [userMessage, assistantMessage]
      , status := "Ready to chat!"
      , metricsPublished := some (successMetrics sttLatency apiLatency ttsLatency env.sched)
      , reachedPlaying := true
      , remoteCalls := remoteCalls
      , finalIsProcessing := false }
  else
    { appended := [userMessage, assistantMessage]
    , status := "Synthesizing speech..."
    , metricsPublished := none
    , reachedPlaying := false
    , remoteCalls := remoteCalls
    , finalIsProcessing := false }

/-- A reply message the MockWhisperWorker sends back after a transcribe
request: an error, or a transcript with a measured latency. -/
inductive WorkerReply where
  | error (msg : String)
  | transcript (text : String) (latency : Nat)
deriving DecidableEq

/-- The eight canned transcripts of MockWhisperWorker (lines 51-60). -/
def mockTranscripts : List String :=
  [ "Hello, how are you today?"
  , "What\'s the weather like?"
  , "Can you tell me a joke?"
  , "What time is it?"
  , "Tell me about artificial intelligence"
  , "How does machine learning work?"
  , "What\'s the capital of France?"
  , "Can you help me with my project?" ]

/-- MockWhisperWorker.postMessage on a transcribe request (lines 43-71):
when the model is not loaded it sends an error message; otherwise it
sends a randomly picked transcript (the pick is the `pick` oracle) with
the measured latency. -/
def MockWhisperWorker.postTranscribe (isLoaded : Bool) (pick : Fin 8)
    (latency : Nat) : WorkerReply :=
  if !isLoaded then
    .error "Model not loaded yet"
  else
    .transcript (mockTranscripts.get ⟨pick.val, by
      cases pick with | mk v h => simpa [mockTranscripts] using h⟩) latency

/-- The generic assistant error turn of handleTranscript's catch clause
(lines 349-353). -/
def genericErrorTurn (ts : Nat) : Message :=
  ⟨.assistant, "Sorry, I encountered an error processing your request.", ts⟩

/-- Modelled from the spec: the worker onmessage dispatch that routes
MockWhisperWorker replies into the component is absent from src (the
initialization effect that should create the worker and install the
handler was replaced by a duplicate of the audio-blob effect), so the
transcription-failure branch is taken from the spec's words: a
TranscriptionError is fatal to the run, surfaces one generic assistant
error Turn, and retains no partial user turn. The error text is the
generic one the component itself uses. -/
def onTranscriptionError (messages : List Message) (ts : Nat) :
    List Message :=
  messages ++ [genericErrorTurn ts]

/-- Observable outcome of handleRecordingToggle: whether recording was
started or stopped, whether the not-ready alert fired, and the status
update if one was made. -/
structure ToggleResult where
  startedRecording : Bool
  stoppedRecording : Bool
  alerted : Bool
  statusAfter : Option String
deriving DecidableEq

/-- handleRecordingToggle (lines 376-388): stop when recording; otherwise
reject with an alert and no further effect when the Whisper model is not
loaded; otherwise start recording. -/
def handleRecordingToggle (isRecording isModelLoaded : Bool) :
    ToggleResult :=
  if isRecording then
    { startedRecording := false, stoppedRecording := true
    , alerted := false, statusAfter := some "Processing recording..." }
  else if !isModelLoaded then
    { startedRecording := false, stoppedRecording := false
    , alerted := true, statusAfter := none }
  else
    { startedRecording := true, stoppedRecording := false
    , alerted := false, statusAfter := some "Listening... Click stop when done" }

/-- The apiKey effect (lines 263-267): a new client is installed only
when the key is truthy and its trim is truthy; otherwise the current
client reference is left untouched (there is no else branch). -/
def applyApiKeyEffect (current : Option String) (apiKey : String) :
    Option String :=
  if apiKey ≠ "" && trimStr apiKey ≠ "" then some apiKey else current

/-- The render snapshot the audio-blob effects observe in one commit:
whether audioBlob is non-null, whether whisperWorkerRef.current is set,
and the isModelLoaded flag. Both effects of a commit observe the same
snapshot: resetAudio only schedules a state update for the next render. -/
structure Snapshot where
  audioBlobPresent : Bool
  workerPresent : Bool
  isModelLoaded : Bool
deriving DecidableEq

/-- Body shared verbatim by both audio-blob effects (lines 253-260 and
270-277): the number of transcribe requests it posts on a snapshot. -/
def audioBlobEffect (s : Snapshot) : Nat :=
  if s.audioBlobPresent && s.workerPresent && s.isModelLoaded then 1 else 0

/-- The component registers the audio-blob effect twice, with identical
bodies and identical dependency lists. -/
def registeredAudioBlobEffects : List (Snapshot → Nat) :=
  [audioBlobEffect, audioBlobEffect]

/-- Total number of transcribe requests dispatched in one commit where
the audio-blob dependencies changed: every registered effect runs on the
same snapshot. -/
def commitDispatchCount (s : Snapshot) : Nat :=
  (registeredAudioBlobEffects.map (fun e => e s)).sum

/-- How the component state updates performanceMetrics after a run: the
published snapshot replaces the previous one; when the run publishes
nothing, the previous value is retained. -/
def updateMetrics (prev : Option PerformanceMetrics) (r : RunResult) :
    Option PerformanceMetrics :=
  match r.metricsPublished with
  | some m => some m
  | none => prev

/-! Shared facts about the embedding, and concrete runs used to
instantiate the claims. -/

/-- A representative well-formed schedule: completion span 600 ms,
synthesis span 600 ms, playback from 1200 ms to 2300 ms. -/
def schedA : Schedule := ⟨0, 0, 600, 600, 1200, 1200, 2300⟩

/-- A baseline run environment: empty history, offline, no client,
both TTS flags set, synthesis succeeding, over `schedA`. -/
def baseEnv : Env :=
  { messages := []
  , isOnline := false
  , client := none
  , ttsEnginePresent := true
  , isTTSLoaded := true
  , fetchOutcome := .networkError
  , jokeIdx := 0
  , timeStr := "10:00:00 AM"
  , dateStr := "1/1/2020"
  , ttsFails := false
  , sched := schedA }

/-- The run environment with a failing synthesis engine. -/
def envTtsFails : Env := { baseEnv with ttsFails := true }

/-- The run environment with the TTS engine not yet loaded. -/
def envTtsUnready : Env := { baseEnv with isTTSLoaded := false }

/-- The run environment online with a configured client. -/
def envOnline : Env := { baseEnv with isOnline := true, client := some "sk-test" }

/-- Whatever branch handleTranscript ends in, the messages it appends are
the user turn with the transcript text followed by the assistant turn
with the completion reply. -/
theorem handleTranscript_appended (env : Env) (text : String) (stt : Nat) :
    (handleTranscript env text stt).appended =
      [ ⟨.user, text, env.sched.overallStart⟩
      , ⟨.assistant, completionText env text, env.sched.apiSpanEnd⟩ ] := by
  unfold handleTranscript
  by_cases hb : (env.ttsEnginePresent && env.isTTSLoaded) = true <;>
    by_cases hf : env.ttsFails = true <;>
      simp [hb, hf]

/-- The remote client is consulted exactly when the run is online with a
configured client; the count of remote calls records it. -/
theorem handleTranscript_remoteCalls (env : Env) (text : String) (stt : Nat) :
    (handleTranscript env text stt).remoteCalls =
      (if env.isOnline && env.client.isSome then 1 else 0) := by
  unfold handleTranscript
  by_cases hb : (env.ttsEnginePresent && env.isTTSLoaded) = true <;>
    by_cases hf : env.ttsFails = true <;>
      simp [hb, hf]

/-! Claim C1. -/

/-- The bound claim C1 states on a published metrics snapshot. -/
def claimC1Bound (m : PerformanceMetrics) : Prop :=
  m.totalLatency ≥ m.sttLatency + m.apiLatency + m.ttsLatency ∧
  m.playbackStart ≥ m.sttLatency + m.apiLatency

instance (m : PerformanceMetrics) : Decidable (claimC1Bound m) := by
  unfold claimC1Bound; infer_instance

/-- The metrics the baseline full-success run publishes when the
transcription stage itself took 3000 ms. -/
def mRunA : PerformanceMetrics := ⟨3000, 600, 600, 2300, 1200⟩

/-- C1 is false as stated: a full successful run (well-formed schedule,
playback reached, metrics published) whose transcription latency exceeds
the post-transcript span violates both inequalities, because
overallStartTime is taken at handleTranscript entry - after transcription
completed - so sttLatency is not part of totalLatency or playbackStart. -/
theorem C1_counterexample :
    baseEnv.sched.WF ∧
    (handleTranscript baseEnv "Hello, how are you today?" 3000).reachedPlaying = true ∧
    (handleTranscript baseEnv "Hello, how are you today?" 3000).metricsPublished = some mRunA ∧
    ¬ claimC1Bound mRunA := by
  exact ⟨by decide, by decide, by decide, by decide⟩

/-- C1 (amended): for every run over a well-formed schedule that
publishes a PerformanceMetrics snapshot, totalLatency ≥ apiLatency +
ttsLatency and playbackStart ≥ apiLatency. The latency clock starts when
the transcript arrives (handleTranscript entry), not when the utterance
becomes ready, so sttLatency does not participate in either bound. -/
theorem C1_amended (env : Env) (text : String) (stt : Nat)
    (m : PerformanceMetrics) (hwf : env.sched.WF)
    (hm : (handleTranscript env text stt).metricsPublished = some m) :
    m.totalLatency ≥ m.apiLatency + m.ttsLatency ∧
    m.playbackStart ≥ m.apiLatency := by
  obtain ⟨h1, h2, h3, h4, h5, h6⟩ := hwf
  unfold handleTranscript at hm
  by_cases hb : (env.ttsEnginePresent && env.isTTSLoaded) = true <;>
    by_cases hf : env.ttsFails = true <;>
      simp [hb, hf] at hm
  subst hm
  unfold successMetrics
  constructor <;> simp <;> omega

/-- C1 amended witness: the baseline full-success run satisfies the
amended bounds. -/
theorem C1_amended_witness :
    baseEnv.sched.WF ∧
    (handleTranscript baseEnv "Hello, how are you today?" 3000).metricsPublished = some mRunA ∧
    (mRunA.totalLatency ≥ mRunA.apiLatency + mRunA.ttsLatency ∧
     mRunA.playbackStart ≥ mRunA.apiLatency) :=
  ⟨by decide, by decide,
    C1_amended baseEnv "Hello, how are you today?" 3000 mRunA (by decide) (by decide)⟩

/-! Claim C2. -/

/-- C2: a transcription failure (the worker reports an error because the
model is not loaded) appends no user Turn and exactly one generic
assistant error Turn: the store keeps its previous entries unchanged and
grows by exactly one assistant message. The dispatch from the worker
error to the store is modelled from the spec (see onTranscriptionError);
the worker's error reply itself is taken from src. -/
theorem C2_transcription_failure (msgs : List Message) (ts lat : Nat)
    (pick : Fin 8) :
    MockWhisperWorker.postTranscribe false pick lat = .error "Model not loaded yet" ∧
    (onTranscriptionError msgs ts).length = msgs.length + 1 ∧
    (onTranscriptionError msgs ts).take msgs.length = msgs ∧
    (onTranscriptionError msgs ts).drop msgs.length = [genericErrorTurn ts] ∧
    (genericErrorTurn ts).role = .assistant := by
  refine ⟨rfl, ?_, ?_, ?_, rfl⟩ <;>
    simp [onTranscriptionError, List.take_left, List.drop_left]

/-! Claim C3. -/

/-- C3 fails on the code and the spec flags the duplication as the
original's slip: the audio-blob effect is registered twice with identical
bodies and dependencies, so one commit in which the captured blob becomes
available (worker present, model loaded) dispatches the transcribe
request twice, not at most once. -/
theorem C3_duplicate_dispatch :
    registeredAudioBlobEffects.length = 2 ∧
    commitDispatchCount ⟨true, true, true⟩ = 2 ∧
    ¬ commitDispatchCount ⟨true, true, true⟩ ≤ 1 := by
  exact ⟨by decide, by decide, by decide⟩

/-! Claim C4. -/

/-- C4: when completion succeeds and synthesis fails, the run appends the
user turn and exactly one assistant turn carrying the completion reply
(no error turn), never reaches Playing, ends with the degraded status
message and with isProcessing cleared. -/
theorem C4_synthesis_failure (env : Env) (text : String) (stt : Nat)
    (hp : env.ttsEnginePresent = true) (hl : env.isTTSLoaded = true)
    (hf : env.ttsFails = true) :
    (handleTranscript env text stt).appended.map Message.role = [.user, .assistant] ∧
    (handleTranscript env text stt).appended.map Message.content =
      [text, completionText env text] ∧
    (handleTranscript env text stt).reachedPlaying = false ∧
    (handleTranscript env text stt).status = "TTS error, but response received" ∧
    (handleTranscript env text stt).finalIsProcessing = false := by
  unfold handleTranscript
  simp [hp, hl, hf]

/-- C4 witness: the baseline run with a failing synthesis engine. -/
theorem C4_witness :
    (handleTranscript envTtsFails "Hello, how are you today?" 800).appended.map Message.role = [.user, .assistant] ∧
    (handleTranscript envTtsFails "Hello, how are you today?" 800).appended.map Message.content =
      ["Hello, how are you today?", completionText envTtsFails "Hello, how are you today?"] ∧
    (handleTranscript envTtsFails "Hello, how are you today?" 800).reachedPlaying = false ∧
    (handleTranscript envTtsFails "Hello, how are you today?" 800).status = "TTS error, but response received" ∧
    (handleTranscript envTtsFails "Hello, how are you today?" 800).finalIsProcessing = false :=
  C4_synthesis_failure envTtsFails "Hello, how are you today?" 800 rfl rfl rfl

/-! Claim C5. -/

/-- C5: an offline run never consults the remote client (zero remote
calls) and still appends an assistant turn whose content comes from the
local offline responder. -/
theorem C5_offline_no_remote (env : Env) (text : String) (stt : Nat)
    (hOff : env.isOnline = false) :
    (handleTranscript env text stt).remoteCalls = 0 ∧
    (handleTranscript env text stt).appended.map Message.role = [.user, .assistant] ∧
    (handleTranscript env text stt).appended.map Message.content =
      [text, getOfflineResponse env.timeStr env.dateStr text] := by
  refine ⟨?_, ?_, ?_⟩
  · rw [handleTranscript_remoteCalls]; simp [hOff]
  · rw [handleTranscript_appended]; simp
  · rw [handleTranscript_appended]; simp [completionText, hOff]

/-- C5 witness: the baseline offline run on a concrete utterance. -/
theorem C5_witness :
    (handleTranscript baseEnv "What time is it?" 800).remoteCalls = 0 ∧
    (handleTranscript baseEnv "What time is it?" 800).appended.map Message.role = [.user, .assistant] ∧
    (handleTranscript baseEnv "What time is it?" 800).appended.map Message.content =
      ["What time is it?", getOfflineResponse baseEnv.timeStr baseEnv.dateStr "What time is it?"] :=
  C5_offline_no_remote baseEnv "What time is it?" 800 rfl

/-! Claim C6. -/

/-- C6 is false as stated for the offline responder: it has no weather
and no joke branch. Inputs carrying the weather or joke keyword fall
through to the generic echo instead of a weather or joke reply (those
two branches exist only in OpenAIClient.generateFallbackResponse). -/
theorem C6_counterexample :
    includes (toLowerCase "Can you tell me a joke?") "joke" = true ∧
    getOfflineResponse "10:00:00 AM" "1/1/2020" "Can you tell me a joke?" =
      "You said: \"Can you tell me a joke?\". I\'m running offline with local STT and TTS. What would you like to know?" ∧
    includes (toLowerCase "What\'s the weather like?") "weather" = true ∧
    getOfflineResponse "10:00:00 AM" "1/1/2020" "What\'s the weather like?" =
      "You said: \"What\'s the weather like?\". I\'m running offline with local STT and TTS. What would you like to know?" := by
  exact ⟨by decide, by decide, by decide, by decide⟩

/-- C6 (amended): the offline responder is a function of the latest user
text (plus the wall-clock strings its branches interpolate),
keyword-matched over greeting, time, date and a generic echo - weather
and joke branches exist only in the remote client's fallback; every
output is one of those four shapes. In offline mode the input "What time
is it?" yields an assistant Turn in the time-branch format with no
remote call. -/
theorem C6_amended (env : Env) (stt : Nat) (hOff : env.isOnline = false) :
    (handleTranscript env "What time is it?" stt).remoteCalls = 0 ∧
    (handleTranscript env "What time is it?" stt).appended.map Message.role = [.user, .assistant] ∧
    (handleTranscript env "What time is it?" stt).appended.map Message.content =
      ["What time is it?", "The current time is " ++ env.timeStr] ∧
    (∀ ts ds input, getOfflineResponse ts ds input =
        "Hello! I\'m running in offline mode with local speech processing. How can I help you?" ∨
      getOfflineResponse ts ds input = "The current time is " ++ ts ∨
      getOfflineResponse ts ds input = "Today\'s date is " ++ ds ∨
      getOfflineResponse ts ds input =
        "You said: \"" ++ input ++ "\". I\'m running offline with local STT and TTS. What would you like to know?") := by
  refine ⟨?_, ?_, ?_, ?_⟩
  · rw [handleTranscript_remoteCalls]; simp [hOff]
  · rw [handleTranscript_appended]; simp
  · rw [handleTranscript_appended]
    have hc : completionText env "What time is it?" =
        "The current time is " ++ env.timeStr := by
      unfold completionText getOfflineResponse
      have h1 : (includes (toLowerCase "What time is it?") "hello" ||
          includes (toLowerCase "What time is it?") "hi") = false := by decide
      have h2 : includes (toLowerCase "What time is it?") "time" = true := by decide
      simp [hOff, h1, h2]
    simp [hc]
  · intro ts ds input
    unfold getOfflineResponse
    by_cases h1 : (includes (toLowerCase input) "hello" || includes (toLowerCase input) "hi") = true <;>
      by_cases h2 : includes (toLowerCase input) "time" = true <;>
        by_cases h3 : includes (toLowerCase input) "date" = true <;>
          simp [h1, h2, h3]

/-- C6 amended witness: the baseline offline run on "What time is it?". -/
theorem C6_witness :
    (handleTranscript baseEnv "What time is it?" 800).remoteCalls = 0 ∧
    (handleTranscript baseEnv "What time is it?" 800).appended.map Message.role = [.user, .assistant] ∧
    (handleTranscript baseEnv "What time is it?" 800).appended.map Message.content =
      ["What time is it?", "The current time is " ++ baseEnv.timeStr] ∧
    (∀ ts ds input, getOfflineResponse ts ds input =
        "Hello! I\'m running in offline mode with local speech processing. How can I help you?" ∨
      getOfflineResponse ts ds input = "The current time is " ++ ts ∨
      getOfflineResponse ts ds input = "Today\'s date is " ++ ds ∨
      getOfflineResponse ts ds input =
        "You said: \"" ++ input ++ "\". I\'m running offline with local STT and TTS. What would you like to know?") :=
  C6_amended baseEnv 800 rfl

/-! Claim C7. -/

/-- C7: a begin-capture request (toggle while not recording) with the
transcription readiness flag false is rejected with the not-ready alert
and causes no transition: recording is not started, nothing is stopped,
and the status is left unchanged. -/
theorem C7_not_ready_reject :
    handleRecordingToggle false false =
      { startedRecording := false, stoppedRecording := false
      , alerted := true, statusAfter := none } := by
  decide

/-! Claim C8. -/

/-- A previously published snapshot, used to show retention. -/
def mPrevRun : PerformanceMetrics := ⟨100, 200, 300, 900, 600⟩

/-- C8 is false as stated: a run that skips synthesis (here: TTS engine
not loaded) completes with both turns appended but publishes no
PerformanceMetrics snapshot at all - setPerformanceMetrics is only
reached on the full success path - and the previous snapshot is retained
unchanged. No partial snapshot with absent stages exists; the metrics
interface has all five fields mandatory. -/
theorem C8_counterexample :
    (handleTranscript envTtsUnready "Hello, how are you today?" 800).appended.length = 2 ∧
    (handleTranscript envTtsUnready "Hello, how are you today?" 800).metricsPublished = none ∧
    updateMetrics (some mPrevRun) (handleTranscript envTtsUnready "Hello, how are you today?" 800) =
      some mPrevRun ∧
    updateMetrics none (handleTranscript envTtsUnready "Hello, how are you today?" 800) = none := by
  exact ⟨by decide, by decide, by decide, by decide⟩

/-- C8 (amended): after every run in which a stage was skipped (synthesis
failed, or the TTS engine absent or unready), no new PerformanceMetrics
snapshot is produced: the run publishes nothing and whatever snapshot was
current before the run (possibly none) is retained unchanged. -/
theorem C8_amended (env : Env) (text : String) (stt : Nat)
    (h : env.ttsEnginePresent = false ∨ env.isTTSLoaded = false ∨ env.ttsFails = true) :
    (handleTranscript env text stt).metricsPublished = none ∧
    ∀ prev, updateMetrics prev (handleTranscript env text stt) = prev := by
  have hm : (handleTranscript env text stt).metricsPublished = none := by
    unfold handleTranscript
    by_cases hb : (env.ttsEnginePresent && env.isTTSLoaded) = true <;>
      by_cases hf : env.ttsFails = true <;>
        simp [hb, hf]
    rcases h with h | h | h <;> simp_all
  refine ⟨hm, fun prev => ?_⟩
  unfold updateMetrics
  rw [hm]

/-- C8 amended witness: the run with the unready TTS engine. -/
theorem C8_witness :
    (handleTranscript envTtsUnready "Hello, how are you today?" 800).metricsPublished = none ∧
    ∀ prev, updateMetrics prev (handleTranscript envTtsUnready "Hello, how are you today?" 800) = prev :=
  C8_amended envTtsUnready "Hello, how are you today?" 800 (Or.inr (Or.inl rfl))

/-! Claim C9. -/

/-- C9: any input whose lower-cased text contains "hi" anywhere - also
inside another word - takes the greeting branch of both responders,
because the keyword match is substring-based and the greeting branch is
tested first. -/
theorem C9_hi_substring (jokeIdx : Fin 3) (ts ds input : String)
    (h : includes (toLowerCase input) "hi" = true) :
    getOfflineResponse ts ds input =
      "Hello! I\'m running in offline mode with local speech processing. How can I help you?" ∧
    generateFallbackResponse jokeIdx ts input =
      "Hello! I\'m your AI assistant. How can I help you today?" := by
  unfold getOfflineResponse generateFallbackResponse
  simp [h]

/-- C9 witness: "machine" lower-cases to a string containing "hi" and
both responders greet. -/
theorem C9_witness :
    includes (toLowerCase "machine") "hi" = true ∧
    (getOfflineResponse "10:00:00 AM" "1/1/2020" "machine" =
      "Hello! I\'m running in offline mode with local speech processing. How can I help you?" ∧
    generateFallbackResponse 0 "10:00:00 AM" "machine" =
      "Hello! I\'m your AI assistant. How can I help you today?") :=
  ⟨by decide, C9_hi_substring 0 "10:00:00 AM" "1/1/2020" "machine" (by decide)⟩

/-! Claim C10. -/

/-- The api-key effect never clears a configured client. -/
theorem applyApiKeyEffect_isSome (cur : Option String) (k : String)
    (h : cur.isSome = true) : (applyApiKeyEffect cur k).isSome = true := by
  unfold applyApiKeyEffect
  split <;> simp [h]

/-- Once configured, the client stays configured across any sequence of
api-key updates. -/
theorem applyApiKeyEffect_foldl_isSome (keys : List String) :
    ∀ cur : Option String, cur.isSome = true →
      (keys.foldl applyApiKeyEffect cur).isSome = true := by
  induction keys with
  | nil => intro cur h; simpa using h
  | cons k rest ih =>
      intro cur h
      exact ih (applyApiKeyEffect cur k) (applyApiKeyEffect_isSome cur k h)

/-- C10: empty or whitespace-only credentials never deconfigure the
completion client: the effect leaves the current client untouched on such
input, a configured client stays configured across any sequence of
credential updates, and an online run with a configured client still
makes exactly one remote call. -/
theorem C10_configured_persists (c : String) (keys : List String)
    (env : Env) (text : String) (stt : Nat)
    (hOn : env.isOnline = true) (hC : env.client.isSome = true) :
    applyApiKeyEffect (some c) "" = some c ∧
    applyApiKeyEffect (some c) "   " = some c ∧
    (keys.foldl applyApiKeyEffect (some c)).isSome = true ∧
    (handleTranscript env text stt).remoteCalls = 1 := by
  refine ⟨?_, ?_, ?_, ?_⟩
  · unfold applyApiKeyEffect; simp
  · unfold applyApiKeyEffect
    have ht : trimStr "   " = "" := by decide
    simp [ht]
  · exact applyApiKeyEffect_foldl_isSome keys (some c) rfl
  · rw [handleTranscript_remoteCalls]; simp [hOn, hC]

/-- C10 witness: a configured client survives an empty and a blank
credential update, and the online configured run calls the remote
endpoint once. -/
theorem C10_witness :
    applyApiKeyEffect (some "sk-test") "" = some "sk-test" ∧
    applyApiKeyEffect (some "sk-test") "   " = some "sk-test" ∧
    ((["", "   "] : List String).foldl applyApiKeyEffect (some "sk-test")).isSome = true ∧
    (handleTranscript envOnline "Hello, how are you today?" 800).remoteCalls = 1 :=
  C10_configured_persists "sk-test" ["", "   "] envOnline "Hello, how are you today?" 800 rfl rfl

end VoiceAI
